import Mathlib

/-!
Shallow embedding of the caching / freshness-reconciliation core of
`weather_monitor.py` and `test_historical.py`, together with theorems that
settle the frozen claims about this code.

Modelling conventions:
* JSON values loaded from the persisted artifacts are an inductive `Json`
  (numbers as `ℚ`, objects as insertion-ordered association lists, which is
  how Python dicts behave).
* Python operations that can raise (`.get` on a non-dict, `x[k]`, `in` on a
  non-container) return `Except PyErr _`; the exception value records the
  Python exception class.
* File reads are modelled by a `FileState` (absent / undecodable / parsed
  content), matching the three observable outcomes of `json.load`.
* The external HTTP / geocoding collaborators are oracles passed in as
  parameters; the read-modify-write of a cache file inside one function is
  modelled by threading the loaded mapping in and the saved mapping out.
* Timestamps (`time.time()`) and `pop` values are `ℚ`.
-/

inductive Json where
  | null
  | bool (b : Bool)
  | num (q : ℚ)
  | str (s : String)
  | arr (xs : List Json)
  | obj (kvs : List (String × Json))

/-- Python truthiness of a JSON value: `None`, `False`, `0`, `""`, `[]`, `{}`
are falsy, everything else truthy. -/
def Json.truthy : Json → Bool
  | .null => false
  | .bool b => b
  | .num q => !(decide (q = 0))
  | .str s => !(s == "")
  | .arr xs => !xs.isEmpty
  | .obj kvs => !kvs.isEmpty

/-- First-match key lookup in a JSON object's association list (Python dicts
have unique keys, so first match is exact dict lookup). -/
def jlookup : List (String × Json) → String → Option Json
  | [], _ => none
  | (k, v) :: rest, key => if k = key then some v else jlookup rest key

/-- Python exception classes that the modelled code can raise. -/
inductive PyErr where
  | attributeError
  | typeError
  | keyError
deriving DecidableEq

/-- Python `d.get(key, default)`: only dicts have a `.get` method; calling it
on any other value raises `AttributeError`. -/
def Json.pyGet (j : Json) (key : String) (dflt : Json) : Except PyErr Json :=
  match j with
  | .obj kvs => .ok ((jlookup kvs key).getD dflt)
  | _ => .error .attributeError

/-- Python `d[key]` subscription on a JSON value: `KeyError` when the key is
absent from a dict, `TypeError` on non-dict values. -/
def Json.pyIndex (j : Json) (key : String) : Except PyErr Json :=
  match j with
  | .obj kvs =>
    match jlookup kvs key with
    | some v => .ok v
    | none => .error .keyError
  | _ => .error .typeError

/-- Python `==` between a JSON value and a string: true exactly when the value
is a string with the same content (cross-type `==` is `False`, not an error). -/
def jsonEqStr : Json → String → Bool
  | .str s, t => s == t
  | _, _ => false

/-- Python `key in container` for a string key: dict membership tests keys,
list membership compares elements with `==`, string membership is substring
search; `in` on other values raises `TypeError`. -/
def Json.pyContainsStr (j : Json) (key : String) : Except PyErr Bool :=
  match j with
  | .obj kvs => .ok (kvs.any fun p => p.1 == key)
  | .arr xs => .ok (xs.any fun x => jsonEqStr x key)
  | .str s => .ok (decide (List.IsInfix key.data s.data))
  | _ => .error .typeError

/-- Lexicographic comparison of character sequences by code point, the order
Python uses to compare `str` values. -/
def lexLe : List Char → List Char → Bool
  | [], _ => true
  | _ :: _, [] => false
  | a :: as, b :: bs =>
    if a.toNat < b.toNat then true
    else if b.toNat < a.toNat then false
    else lexLe as bs

/-- Python string `<=`, by code points. -/
def strLe (a b : String) : Bool := lexLe a.data b.data

/-- Python `sorted` on a list of strings: the sorted permutation under `strLe`
(Python's sort is a stable mergesort; on strings any correct sort yields the
same sequence, since equal strings are identical). -/
def pySorted (l : List String) : List String :=
  List.insertionSort (fun a b => strLe a b = true) l

/-! SHA-256, as used by `hashlib.sha256(...).hexdigest()` on the UTF-8 bytes
of the joined string. Words are `Nat` reduced mod `2 ^ 32`. -/

def rotr32 (n x : Nat) : Nat := ((x >>> n) ||| (x <<< (32 - n))) % 2 ^ 32

def bigSigma0 (x : Nat) : Nat := rotr32 2 x ^^^ rotr32 13 x ^^^ rotr32 22 x

def bigSigma1 (x : Nat) : Nat := rotr32 6 x ^^^ rotr32 11 x ^^^ rotr32 25 x

def smallSigma0 (x : Nat) : Nat := rotr32 7 x ^^^ rotr32 18 x ^^^ (x >>> 3)

def smallSigma1 (x : Nat) : Nat := rotr32 17 x ^^^ rotr32 19 x ^^^ (x >>> 10)

def shaK : List Nat :=
  [116352408, 1899447441, 3049323471, 3921009573,
   961987163, 1508970993, 2453635748, 2870763221,
   3624381080, 310598401, 607225278, 1426881987,
   1925078388, 2162078206, 2614888103, 3248222580,
   3835390401, 4022224774, 264347078, 604807628,
   770255983, 1249150122, 1555081692, 1996064986,
   2554220882, 2821834349, 2952996808, 3210313671,
   3336571891, 3584528711, 113926993, 338241895,
   666307205, 773529912, 1294757372, 1396182291,
   1695183700, 1986661051, 2177026350, 2456956037,
   2730485921, 2820302411, 3259730800, 3345764771,
   3516065817, 3600352804, 4094571909, 275423344,
   430227734, 506948616, 659060556, 883997877,
   958139571, 1322822218, 1537002063, 1747873779,
   1955562222, 2024104815, 2227730452, 2361852424,
   2428436474, 2756734187, 3204031479, 3329325298]

def shaH0 : List Nat :=
  [779033703, 3144134277, 1013904242, 2773480762,
   1359893119, 2600822924, 528734635, 1541459225]

/-- Big-endian byte serialization of a value into `n` bytes. -/
def toBytesBE : Nat → Nat → List Nat
  | 0, _ => []
  | n + 1, v => toBytesBE n (v / 256) ++ [v % 256]

/-- SHA-256 padding: append `0x80`, zero bytes up to 56 mod 64, then the
64-bit big-endian bit length. -/
def shaPad (msg : List Nat) : List Nat :=
  msg ++ [0x80] ++ List.replicate ((119 - msg.length % 64) % 64) 0
      ++ toBytesBE 8 (8 * msg.length)

/-- Group bytes into big-endian 32-bit words. -/
def bytesToWords : List Nat → List Nat
  | b0 :: b1 :: b2 :: b3 :: rest => (((b0 * 256 + b1) * 256 + b2) * 256 + b3) :: bytesToWords rest
  | _ => []

/-- Split a word list into 16-word blocks. -/
def chunks16 (ws : List Nat) : List (List Nat) :=
  if h : ws = [] then []
  else (ws.take 16) :: chunks16 (ws.drop 16)
termination_by ws.length
decreasing_by
  simp only [List.length_drop]
  have hl : ws.length ≠ 0 := fun hz => h (List.eq_nil_of_length_eq_zero hz)
  omega

/-- Extend a 16-word block by `n` further message-schedule words. -/
def schedRec : Nat → List Nat → List Nat
  | 0, w => w
  | n + 1, w =>
    let i := w.length
    let nw := (smallSigma1 (w.getD (i - 2) 0) + w.getD (i - 7) 0
        + smallSigma0 (w.getD (i - 15) 0) + w.getD (i - 16) 0) % 2 ^ 32
    schedRec n (w ++ [nw])

/-- One round of the SHA-256 compression function on state `[a,b,c,d,e,f,g,h]`. -/
def shaRound (st : List Nat) (k w : Nat) : List Nat :=
  match st with
  | [a, b, c, d, e, f, g, hh] =>
    let ch := (e &&& f) ^^^ ((e ^^^ 0xffffffff) &&& g)
    let temp1 := (hh + bigSigma1 e + ch + k + w) % 2 ^ 32
    let maj := (a &&& b) ^^^ (a &&& c) ^^^ (b &&& c)
    let temp2 := (bigSigma0 a + maj) % 2 ^ 32
    [(temp1 + temp2) % 2 ^ 32, a, b, c, (d + temp1) % 2 ^ 32, e, f, g]
  | s => s

/-- Process one 512-bit block into the running hash state. -/
def processBlock (hs block : List Nat) : List Nat :=
  let w := schedRec 48 block
  let st := (shaK.zip w).foldl (fun st kw => shaRound st kw.1 kw.2) hs
  (hs.zip st).map fun p => (p.1 + p.2) % 2 ^ 32

/-- SHA-256 digest of a byte sequence, as eight 32-bit words. -/
def sha256Words (msg : List Nat) : List Nat :=
  (chunks16 (bytesToWords (shaPad msg))).foldl processBlock shaH0

/-- Lowercase hex digit for a value below 16. -/
def hexDigit (n : Nat) : Char :=
  if n < 10 then Char.ofNat (48 + n) else Char.ofNat (87 + n)

/-- Lowercase big-endian hex rendering of a value into `n` digits. -/
def toHexBE : Nat → Nat → List Char
  | 0, _ => []
  | n + 1, v => toHexBE n (v / 16) ++ [hexDigit (v % 16)]

/-- `hashlib.sha256(s.encode()).hexdigest()`: SHA-256 of the UTF-8 bytes,
rendered as 64 lowercase hex characters. -/
def sha256_hex (s : String) : String :=
  String.mk (((sha256Words (s.toUTF8.toList.map fun b => b.toNat)).map
    fun w => toHexBE 8 w).foldr (· ++ ·) [])

/-- Source `hash_locations` (weather_monitor.py lines 66-68): SHA-256 hex
digest of the `"|"`-joined sorted locations list. -/
def hash_locations (locations : List String) : String :=
  sha256_hex (String.intercalate ("|") (pySorted locations))

/-- Observable outcome of opening and JSON-decoding a persisted file. -/
inductive FileState where
  | absent
  | undecodable
  | content (j : Json)

/-- Source `load_json` (weather_monitor.py lines 70-78): returns the parsed
value whatever its shape, and `{}` when the file is absent or fails to
decode. -/
def load_json : FileState → Json
  | .absent => .obj []
  | .undecodable => .obj []
  | .content j => j

/-- Python `all(loc in container for loc in locations)`: short-circuiting
conjunction of membership tests, propagating the first raised exception. -/
def allIn (locations : List String) (container : Json) : Except PyErr Bool :=
  match locations with
  | [] => .ok true
  | loc :: rest =>
    match container.pyContainsStr loc with
    | .error e => .error e
    | .ok b => if b then allIn rest container else .ok false

/-- Source `get_location_cache` (weather_monitor.py lines 115-130).
`cache` is the value loaded from the location cache file, `locations` the
configured list (the global `LOCATIONS`), and `rebuilt` the result the
external `build_location_cache()` collaborator would return; the second
component counts how many times that collaborator is invoked. -/
def get_location_cache (cache : Json) (locations : List String) (rebuilt : Json) :
    Except PyErr (Json × ℕ) :=
  if !cache.truthy then .ok (rebuilt, 1)
  else
    match cache.pyGet ("version") .null with
    | .error e => .error e
    | .ok v =>
      if !(jsonEqStr v (hash_locations locations)) then .ok (rebuilt, 1)
      else
        match cache.pyGet ("locations") (.obj []) with
        | .error e => .error e
        | .ok locs =>
          match allIn locations locs with
          | .error e => .error e
          | .ok ok => if !ok then .ok (rebuilt, 1) else .ok (cache, 0)

/-! Forecast cache manager: `fetch_rain_probability` (weather_monitor.py
lines 170-234). The persisted forecast cache maps a place name to an entry
`{timestamp, data}`; entries written by the code always carry both keys, so
an entry is modelled as a timestamp plus a `data` dict whose two expected
fields may each be present or absent. -/

structure SummaryData where
  max_rain_prob : Option ℤ
  risk_level : Option String
deriving DecidableEq

structure ForecastEntry where
  timestamp : ℚ
  data : SummaryData
deriving DecidableEq

/-- Loaded forecast cache mapping, in file order. -/
def ForecastCache := List (String × ForecastEntry)

/-- Python `forecast_cache.get(place)`. -/
def fcLookup : List (String × ForecastEntry) → String → Option ForecastEntry
  | [], _ => none
  | (k, v) :: rest, key => if k = key then some v else fcLookup rest key

/-- Python `forecast_cache[place] = entry`: replace in place when the key
exists, otherwise append (dict insertion order). -/
def fcInsert : List (String × ForecastEntry) → String → ForecastEntry →
    List (String × ForecastEntry)
  | [], key, v => [(key, v)]
  | (k, w) :: rest, key, v =>
    if k = key then (key, v) :: rest else (k, w) :: fcInsert rest key v

/-- One element of the provider's forecast series; `item.get("pop", 0)` reads
the optional `pop` field. -/
structure ForecastItem where
  pop : Option ℚ
deriving DecidableEq

/-- Outcome of the external forecast HTTP call: any `RequestException` or
other exception, or a decoded response whose `"list"` field holds the series
(`data.get("list", [])`). -/
inductive FetchOutcome where
  | failure
  | success (forecast_list : List ForecastItem)
deriving DecidableEq

/-- Python 3 `round` to an integer: round half to even. -/
def pyRound (q : ℚ) : ℤ :=
  if q - ⌊q⌋ < 1 / 2 then ⌊q⌋
  else if q - ⌊q⌋ > 1 / 2 then ⌊q⌋ + 1
  else if ⌊q⌋ % 2 = 0 then ⌊q⌋ else ⌊q⌋ + 1

/-- Body of the `try` block of `fetch_rain_probability` after a cache miss
(weather_monitor.py lines 189-234): fetch, take the first 4 intervals, fail
on an empty series, compute the max pop (missing pop defaults to 0),
classify, build the summary, write it under `place`, return it. Result is
(returned value, saved cache mapping, number of external fetch calls). -/
def fetch_forecast_update (now : ℚ) (forecast_cache : List (String × ForecastEntry))
    (place : String) :
    FetchOutcome → Option SummaryData × List (String × ForecastEntry) × ℕ
  | .failure => (none, forecast_cache, 1)
  | .success forecast_list =>
    let next_12h := forecast_list.take 4
    match next_12h.map (fun item => item.pop.getD 0) with
    | [] => (none, forecast_cache, 1)
    | p :: ps =>
      let max_pop := ps.foldl max p
      let risk :=
        if max_pop ≥ 7 / 10 then ("HIGH" : String)
        else if max_pop ≥ 2 / 5 then ("MODERATE" : String)
        else ("LOW" : String)
      let summary : SummaryData :=
        { max_rain_prob := some (pyRound (max_pop * 100)), risk_level := some risk }
      (some summary, fcInsert forecast_cache place { timestamp := now, data := summary }, 1)

/-- Source `fetch_rain_probability` (weather_monitor.py lines 170-234).
`api_key` models whether `API_KEY` is set, `now` the `time.time()` sample,
`forecast_cache` the mapping loaded from the forecast cache file, `fetch` the
outcome the external provider would give. Returns (value returned to the
caller, persisted cache mapping after the call, external fetch calls). -/
def fetch_rain_probability (api_key : Bool) (now : ℚ)
    (forecast_cache : List (String × ForecastEntry)) (place : String)
    (fetch : FetchOutcome) : Option SummaryData × List (String × ForecastEntry) × ℕ :=
  if api_key then
    match fcLookup forecast_cache place with
    | some cached_entry =>
      if now - cached_entry.timestamp < 7200 ∧ cached_entry.data.max_rain_prob.isSome
          ∧ cached_entry.data.risk_level.isSome then
        (some cached_entry.data, forecast_cache, 0)
      else
        fetch_forecast_update now forecast_cache place fetch
    | none => fetch_forecast_update now forecast_cache place fetch
  else (none, forecast_cache, 0)

/-! Snapshot builder: `main` (weather_monitor.py lines 239-311). -/

/-- Dict returned by `fetch_weather` on success (weather_monitor.py
lines 152-161); the call itself is an external collaborator, modelled as an
oracle keyed by place. -/
structure WeatherData where
  temp : ℚ
  feels_like : ℚ
  temp_min : ℚ
  temp_max : ℚ
  humidity : ℚ
  wind_speed : ℚ
  clouds : ℚ
  description : String
deriving DecidableEq

/-- One element of the snapshot's `locations` list (weather_monitor.py
lines 262-293). -/
structure LocationResult where
  place : String
  temp : Option ℚ
  feels_like : Option ℚ
  humidity : Option ℚ
  wind_speed : Option ℚ
  clouds : Option ℚ
  description : Option String
  rain_probability : Option ℤ
  risk : String
deriving DecidableEq

/-- Final output dict (weather_monitor.py lines 302-305); `generated_at` is
the clock sample taken when the dict is constructed. -/
structure Snapshot where
  generated_at : ℚ
  locations : List LocationResult
deriving DecidableEq

/-- Per-location result assembly (weather_monitor.py lines 262-293): defaults
first, weather fields filled in on weather success, rain fields on forecast
success; `rain["max_rain_prob"]` on a dict missing the key would raise
`KeyError`. -/
def build_location_result (place : String) (weather : Option WeatherData)
    (rain : Option SummaryData) : Except PyErr LocationResult :=
  let base : LocationResult :=
    { place := place, temp := none, feels_like := none, humidity := none,
      wind_speed := none, clouds := none, description := none,
      rain_probability := none, risk := "UNKNOWN" }
  let wres :=
    match weather with
    | none => base
    | some w =>
      { base with
        temp := some w.temp,
        feels_like := some w.feels_like,
        humidity := some w.humidity,
        wind_speed := some w.wind_speed,
        clouds := some w.clouds,
        description := some w.description }
  match rain with
  | none => .ok wres
  | some r =>
    match r.max_rain_prob, r.risk_level with
    | some mp, some rl => .ok { wres with rain_probability := some mp, risk := rl }
    | _, _ => .error .keyError

/-- Python `coords["lat"], coords["lon"]` (weather_monitor.py line 257). -/
def get_coords (coords : Json) : Except PyErr (Json × Json) :=
  match coords.pyIndex ("lat") with
  | .error e => .error e
  | .ok lat =>
    match coords.pyIndex ("lon") with
    | .error e => .error e
    | .ok lon => .ok (lat, lon)

/-- Per-location loop of `main` (weather_monitor.py lines 256-299). `clock`
is the sequence of current-time samples; the `k`-th call to `time.time()`
returns `clock k` (each `fetch_rain_probability` call consumes one sample).
The forecast cache file state is threaded through the loop because each call
re-reads and re-writes it. -/
def main_loop (clock : ℕ → ℚ) (weatherOf : String → Option WeatherData)
    (forecastOf : String → FetchOutcome) :
    List (String × Json) → ℕ → List (String × ForecastEntry) →
    Except PyErr (List LocationResult × ℕ × List (String × ForecastEntry))
  | [], k, fc => .ok ([], k, fc)
  | (place, coords) :: rest, k, fc =>
    match get_coords coords with
    | .error e => .error e
    | .ok _ =>
      let res := fetch_rain_probability true (clock k) fc place (forecastOf place)
      match build_location_result place (weatherOf place) res.1 with
      | .error e => .error e
      | .ok r =>
        match main_loop clock weatherOf forecastOf rest (k + 1) res.2.1 with
        | .error e => .error e
        | .ok (rs, k2, fc2) => .ok (r :: rs, k2, fc2)

/-- Loop plus output-dict construction (weather_monitor.py lines 252-305):
`generated_at` is sampled when `output_data` is built, i.e. after the loop
has consumed one sample per location. -/
def main_assemble (clock : ℕ → ℚ) (weatherOf : String → Option WeatherData)
    (forecastOf : String → FetchOutcome) (locations_data : List (String × Json))
    (fc : List (String × ForecastEntry)) :
    Except PyErr (Snapshot × List (String × ForecastEntry)) :=
  match main_loop clock weatherOf forecastOf locations_data 0 fc with
  | .error e => .error e
  | .ok (rs, k, fc') => .ok ({ generated_at := clock k, locations := rs }, fc')

/-- Source `main` (weather_monitor.py lines 239-311): API-key precondition,
location-cache acquisition, `locations_data` extraction, per-location loop,
snapshot persistence. Any exception reaching the top-level handler is logged
and no snapshot is saved, modelled as `none`. -/
def main_try (loc_cache_file : FileState) (locations : List String)
    (rebuilt : Json) (clock : ℕ → ℚ) (weatherOf : String → Option WeatherData)
    (forecastOf : String → FetchOutcome) (fc : List (String × ForecastEntry)) :
    Except PyErr (Option (Snapshot × List (String × ForecastEntry))) :=
  match get_location_cache (load_json loc_cache_file) locations rebuilt with
  | .error e => .error e
  | .ok (cache, _) =>
    match cache.pyGet ("locations") (.obj []) with
    | .error e => .error e
    | .ok locs =>
      if !locs.truthy then .ok none
      else
        match locs with
        | .obj kvs =>
          match main_assemble clock weatherOf forecastOf kvs fc with
          | .error e => .error e
          | .ok r => .ok (some r)
        | _ => .error .attributeError

/-- Top level of `main`: the API-key precondition plus the `try` body; a
`none` result means the run ended without saving a snapshot (precondition
failure, empty location data, or an exception caught by the top-level
handler at weather_monitor.py line 310). -/
def main_model (api_key : Bool) (loc_cache_file : FileState) (locations : List String)
    (rebuilt : Json) (clock : ℕ → ℚ) (weatherOf : String → Option WeatherData)
    (forecastOf : String → FetchOutcome) (fc : List (String × ForecastEntry)) :
    Option (Snapshot × List (String × ForecastEntry)) :=
  if api_key then
    match main_try loc_cache_file locations rebuilt clock weatherOf forecastOf fc with
    | .error _ => none
    | .ok r => r
  else none

/-! Historical accumulator (`test_historical.py`). -/

/-- Source `load_historical_data` (test_historical.py lines 12-26): the
parsed value when it is a JSON array, an empty list when the file is absent,
fails to decode, or parses to a non-array value. -/
def load_historical_data : FileState → List Json
  | .absent => []
  | .undecodable => []
  | .content j =>
    match j with
    | .arr xs => xs
    | _ => []

/-- One run of the accumulator script (test_historical.py lines 72-86): load
the record, append one snapshot, save the array back. -/
def run_append (st : FileState) (snapshot : Json) : FileState :=
  .content (.arr (load_historical_data st ++ [snapshot]))

/-- N successive runs, one appended snapshot per run. -/
def run_appends (st : FileState) (snapshots : List Json) : FileState :=
  snapshots.foldl run_append st

/-! Helper lemmas. -/

theorem lexLe_total (a b : List Char) : lexLe a b = true ∨ lexLe b a = true := by
  induction a generalizing b with
  | nil => left; rfl
  | cons x as ih =>
    cases b with
    | nil => right; rfl
    | cons y bs =>
      rcases Nat.lt_trichotomy x.toNat y.toNat with hlt | heq | hgt
      · left; simp [lexLe, hlt]
      · have hxy : ¬x.toNat < y.toNat := by omega
        have hyx : ¬y.toNat < x.toNat := by omega
        simpa [lexLe, hxy, hyx, heq] using ih bs
      · right; simp [lexLe, hgt]

theorem lexLe_trans {a b c : List Char} (hab : lexLe a b = true) (hbc : lexLe b c = true) :
    lexLe a c = true := by
  induction a generalizing b c with
  | nil => rfl
  | cons x as ih =>
    cases b with
    | nil => simp [lexLe] at hab
    | cons y bs =>
      cases c with
      | nil => simp [lexLe] at hbc
      | cons z cs =>
        simp only [lexLe] at hab hbc ⊢
        by_cases hyx : y.toNat < x.toNat
        · have h1 : ¬x.toNat < y.toNat := by omega
          simp [h1, hyx] at hab
        · by_cases hzy : z.toNat < y.toNat
          · have h2 : ¬y.toNat < z.toNat := by omega
            simp [h2, hzy] at hbc
          · by_cases hxz : x.toNat < z.toNat
            · simp [hxz]
            · have hxy : ¬x.toNat < y.toNat := by omega
              have hyz : ¬y.toNat < z.toNat := by omega
              have hzx : ¬z.toNat < x.toNat := by omega
              simp only [hxy, hyx, hzy, hyz, hxz, hzx, if_false] at hab hbc ⊢
              exact ih hab hbc

theorem lexLe_antisymm {a b : List Char} (hab : lexLe a b = true) (hba : lexLe b a = true) :
    a = b := by
  induction a generalizing b with
  | nil =>
    cases b with
    | nil => rfl
    | cons y bs => simp [lexLe] at hba
  | cons x as ih =>
    cases b with
    | nil => simp [lexLe] at hab
    | cons y bs =>
      simp only [lexLe] at hab hba
      rcases Nat.lt_trichotomy x.toNat y.toNat with h1 | h1 | h1
      · have : ¬y.toNat < x.toNat := by omega
        simp [h1, this] at hba
      · have hx : ¬x.toNat < y.toNat := by omega
        have hy : ¬y.toNat < x.toNat := by omega
        simp only [hx, hy, if_false, if_true] at hab hba
        have hchar : x = y := Char.ext (UInt32.ext h1)
        rw [hchar, ih (by simpa using hab) (by simpa using hba)]
      · have : ¬x.toNat < y.toNat := by omega
        simp [h1, this] at hab

instance : IsTotal String fun a b => strLe a b = true :=
  ⟨fun a b => lexLe_total a.data b.data⟩

instance : IsTrans String fun a b => strLe a b = true :=
  ⟨fun _ _ _ hab hbc => lexLe_trans hab hbc⟩

instance : IsAntisymm String fun a b => strLe a b = true :=
  ⟨fun _ _ hab hba => String.ext (lexLe_antisymm hab hba)⟩

/-- C7: `hash_locations` (the location-cache fingerprint) yields the same
digest on every permutation of the configured name list: the digest is taken
over the `"|"`-joined sorted sequence, and sorting is permutation-invariant.
As a Lean function it is pure by construction. -/
theorem hash_locations_perm_invariant (l₁ l₂ : List String) (h : l₁.Perm l₂) :
    hash_locations l₁ = hash_locations l₂ := by
  unfold hash_locations
  refine congrArg sha256_hex (congrArg _ ?_)
  exact List.eq_of_perm_of_sorted
    (((List.perm_insertionSort _ l₁).trans h).trans (List.perm_insertionSort _ l₂).symm)
    (List.sorted_insertionSort _ l₁) (List.sorted_insertionSort _ l₂)

/-- Witness for C7 at the spec's own example: `["A","B"]` and `["B","A"]`. -/
theorem hash_locations_perm_invariant_witness :
    List.Perm [("A" : String), "B"] ["B", "A"]
    ∧ hash_locations ["A", "B"] = hash_locations ["B", "A"] :=
  ⟨by decide, hash_locations_perm_invariant _ _ (by decide)⟩

theorem run_appends_arr (xs snaps : List Json) :
    load_historical_data (run_appends (.content (.arr xs)) snaps) = xs ++ snaps := by
  induction snaps generalizing xs with
  | nil => simp [run_appends, load_historical_data]
  | cons s rest ih =>
    simp only [run_appends, List.foldl_cons] at *
    rw [show run_append (.content (.arr xs)) s = .content (.arr (xs ++ [s])) from rfl, ih]
    simp

/-- C6: `load_historical_data` returns the parsed sequence exactly when the
file holds a JSON array and an empty sequence when the file is absent, fails
to decode, or parses to a non-array value; appending N snapshots to an
initially empty record yields exactly that sequence of snapshots (so length
N with the i-th element the i-th appended snapshot), and one append after
recovery from a malformed (non-array) file yields a one-element sequence. -/
theorem historical_record_spec :
    (load_historical_data .absent = [] ∧ load_historical_data .undecodable = [])
    ∧ (∀ xs, load_historical_data (.content (.arr xs)) = xs)
    ∧ (∀ j, (∀ xs, j ≠ .arr xs) → load_historical_data (.content j) = [])
    ∧ (∀ snaps, load_historical_data (run_appends .absent snaps) = snaps)
    ∧ (∀ j s, (∀ xs, j ≠ .arr xs) → load_historical_data (run_append (.content j) s) = [s]) := by
  refine ⟨⟨rfl, rfl⟩, fun xs => rfl, ?_, ?_, ?_⟩
  · intro j hj
    cases j with
    | arr xs => exact absurd rfl (hj xs)
    | null => rfl
    | bool b => rfl
    | num q => rfl
    | str s => rfl
    | obj kvs => rfl
  · intro snaps
    cases snaps with
    | nil => rfl
    | cons s rest =>
      have : run_appends .absent (s :: rest) = run_appends (.content (.arr [s])) rest := rfl
      rw [this, run_appends_arr]
      simp
  · intro j s hj
    cases j with
    | arr xs => exact absurd rfl (hj xs)
    | null => rfl
    | bool b => rfl
    | num q => rfl
    | str s' => rfl
    | obj kvs => rfl

/-- Witness for C6: recovery branch applied to a JSON object (the spec's
malformed example), then one append producing a length-1 record. -/
theorem historical_record_spec_witness :
    load_historical_data (.content (.obj [])) = []
    ∧ load_historical_data (run_append (.content (.obj [])) (.num 1)) = [.num 1] :=
  ⟨historical_record_spec.2.2.1 (.obj []) (fun _ h => nomatch h),
   historical_record_spec.2.2.2.2 (.obj []) (.num 1) (fun _ h => nomatch h)⟩

theorem fetch_forecast_update_calls (now : ℚ) (cache : List (String × ForecastEntry))
    (place : String) (fo : FetchOutcome) :
    (fetch_forecast_update now cache place fo).2.2 = 1 := by
  cases fo with
  | failure => rfl
  | success items =>
    simp only [fetch_forecast_update]
    cases hm : (items.take 4).map (fun item => item.pop.getD 0) with
    | nil => rfl
    | cons p ps => rfl

theorem fcLookup_fcInsert_self (c : List (String × ForecastEntry)) (k : String)
    (v : ForecastEntry) : fcLookup (fcInsert c k v) k = some v := by
  induction c with
  | nil => simp [fcInsert, fcLookup]
  | cons kv rest ih =>
    obtain ⟨k', w⟩ := kv
    by_cases hk : k' = k
    · simp [fcInsert, hk, fcLookup]
    · simp [fcInsert, hk, fcLookup, ih]

theorem fcLookup_fcInsert_other (c : List (String × ForecastEntry)) (k : String)
    (v : ForecastEntry) (q : String) (h : q ≠ k) :
    fcLookup (fcInsert c k v) q = fcLookup c q := by
  induction c with
  | nil => simp [fcInsert, fcLookup, Ne.symm h]
  | cons kv rest ih =>
    obtain ⟨k', w⟩ := kv
    by_cases hk : k' = k
    · subst hk
      simp [fcInsert, fcLookup, Ne.symm h]
    · simp only [fcInsert, if_neg hk]
      by_cases hq : k' = q
      · simp [fcLookup, hq]
      · simp [fcLookup, hq, ih]

/-- C1: freshness discipline of `fetch_rain_probability`. When the loaded
forecast cache holds an entry for the place whose age satisfies
`now - timestamp < 7200` and whose data carries both `max_rain_prob` and
`risk_level`, the cached data is returned, the cache is left as loaded, and
zero external fetch calls happen; in every other case (entry absent, entry
stale, or either field missing) exactly one external fetch call is
attempted. Stated under the `API_KEY`-present precondition that `main`
establishes before calling. -/
theorem forecast_cache_freshness (now : ℚ) (cache : List (String × ForecastEntry))
    (place : String) (fo : FetchOutcome) :
    (∀ e, fcLookup cache place = some e →
      ((now - e.timestamp < 7200 ∧ e.data.max_rain_prob.isSome ∧ e.data.risk_level.isSome) →
        fetch_rain_probability true now cache place fo = (some e.data, cache, 0))
      ∧ (¬(now - e.timestamp < 7200 ∧ e.data.max_rain_prob.isSome ∧ e.data.risk_level.isSome) →
        (fetch_rain_probability true now cache place fo).2.2 = 1))
    ∧ (fcLookup cache place = none →
      (fetch_rain_probability true now cache place fo).2.2 = 1) := by
  constructor
  · intro e he
    constructor
    · intro hfresh
      simp [fetch_rain_probability, he, hfresh]
    · intro hstale
      simp [fetch_rain_probability, he, hstale, fetch_forecast_update_calls]
  · intro he
    simp [fetch_rain_probability, he, fetch_forecast_update_calls]

/-- Witness for C1: an entry aged 7199 s with both fields is served from
cache with zero fetches; the same entry aged 7201 s triggers one fetch. -/
theorem forecast_cache_freshness_witness :
    fetch_rain_probability true 10000
        [(("P"), ⟨2801, ⟨some 50, some ("MODERATE")⟩⟩)] ("P") .failure
      = (some ⟨some 50, some ("MODERATE")⟩, [(("P"), ⟨2801, ⟨some 50, some ("MODERATE")⟩⟩)], 0)
    ∧ (fetch_rain_probability true 10000
        [(("P"), ⟨2799, ⟨some 50, some ("MODERATE")⟩⟩)] ("P") .failure).2.2 = 1 := by
  constructor
  · exact ((forecast_cache_freshness 10000
        [(("P"), ⟨2801, ⟨some 50, some ("MODERATE")⟩⟩)] ("P") .failure).1
        ⟨2801, ⟨some 50, some ("MODERATE")⟩⟩
      (by simp [fcLookup])).1 ⟨by norm_num, rfl, rfl⟩
  · exact ((forecast_cache_freshness 10000
        [(("P"), ⟨2799, ⟨some 50, some ("MODERATE")⟩⟩)] ("P") .failure).1
        ⟨2799, ⟨some 50, some ("MODERATE")⟩⟩
      (by simp [fcLookup])).2 (fun hc => by norm_num at hc)

/-- Counterexample to C4 as stated: on an empty forecast series,
`fetch_rain_probability` returns `None` (and leaves the cache untouched), not
a summary with risk LOW and probability 0 — the code hits
`if not next_12h: return None` before any classification. -/
theorem empty_series_counterexample :
    fetch_rain_probability true 0 [] ("P") (.success []) = (none, [], 1)
    ∧ (none : Option SummaryData) ≠ some ⟨some 0, some ("LOW")⟩ := by
  constructor
  · simp [fetch_rain_probability, fcLookup, fetch_forecast_update]
  · simp

/-- C4 as amended: if the forecast provider returns an empty series for a
place (and no fresh cached entry short-circuits the fetch), then
`fetch_rain_probability` returns `None` and the persisted cache mapping is
unchanged. -/
theorem empty_series_returns_none (now : ℚ) (cache : List (String × ForecastEntry))
    (place : String)
    (hmiss : ∀ e, fcLookup cache place = some e →
      ¬(now - e.timestamp < 7200 ∧ e.data.max_rain_prob.isSome ∧ e.data.risk_level.isSome)) :
    fetch_rain_probability true now cache place (.success []) = (none, cache, 1) := by
  cases he : fcLookup cache place with
  | some e =>
    simp [fetch_rain_probability, he, hmiss e he, fetch_forecast_update]
  | none =>
    simp [fetch_rain_probability, he, fetch_forecast_update]

/-- Witness for the amended C4 at an empty cache. -/
theorem empty_series_returns_none_witness :
    fetch_rain_probability true 5 [] ("Q") (.success []) = (none, [], 1) :=
  empty_series_returns_none 5 [] ("Q") (fun e he => by simp [fcLookup] at he)

/-- C5: failure isolation and the write frame of `fetch_rain_probability`
when no fresh cached entry short-circuits the call. An HTTP/timeout/other
failure, or an empty forecast series, yields `None` with the persisted
mapping exactly as loaded; a successful fetch returns a summary and persists
`{timestamp := now, data := summary}` under the place's key only, every
other key's entry being looked up unchanged. -/
theorem forecast_failure_frame (now : ℚ) (cache : List (String × ForecastEntry))
    (place : String)
    (hmiss : ∀ e, fcLookup cache place = some e →
      ¬(now - e.timestamp < 7200 ∧ e.data.max_rain_prob.isSome ∧ e.data.risk_level.isSome)) :
    fetch_rain_probability true now cache place .failure = (none, cache, 1)
    ∧ (∀ items, items.take 4 = [] →
      fetch_rain_probability true now cache place (.success items) = (none, cache, 1))
    ∧ (∀ items s cache',
      fetch_rain_probability true now cache place (.success items) = (some s, cache', 1) →
      fcLookup cache' place = some ⟨now, s⟩
      ∧ ∀ q, q ≠ place → fcLookup cache' q = fcLookup cache q) := by
  refine ⟨?_, ?_, ?_⟩
  · cases he : fcLookup cache place with
    | some e => simp [fetch_rain_probability, he, hmiss e he, fetch_forecast_update]
    | none => simp [fetch_rain_probability, he, fetch_forecast_update]
  · intro items htake
    cases he : fcLookup cache place with
    | some e => simp [fetch_rain_probability, he, hmiss e he, fetch_forecast_update, htake]
    | none => simp [fetch_rain_probability, he, fetch_forecast_update, htake]
  · intro items s cache' h
    have hupd : fetch_forecast_update now cache place (.success items) = (some s, cache', 1) := by
      cases he : fcLookup cache place with
      | some e => simpa [fetch_rain_probability, he, hmiss e he] using h
      | none => simpa [fetch_rain_probability, he] using h
    simp only [fetch_forecast_update] at hupd
    cases hm : (items.take 4).map (fun item => item.pop.getD 0) with
    | nil => rw [hm] at hupd; simp at hupd
    | cons p ps =>
      rw [hm] at hupd
      simp only [Prod.mk.injEq, Option.some.injEq] at hupd
      obtain ⟨hs, hc, -⟩ := hupd
      subst hs
      subst hc
      exact ⟨fcLookup_fcInsert_self cache place _,
        fun q hq => fcLookup_fcInsert_other cache place _ q hq⟩

/-- Witness for C5: concrete failing fetch against an empty cache. -/
theorem forecast_failure_frame_witness :
    fetch_rain_probability true 7 [] ("R") .failure = (none, [], 1) :=
  (forecast_failure_frame 7 [] ("R") (fun e he => by simp [fcLookup] at he)).1

theorem init_le_foldl_max : ∀ (ps : List ℚ) (p : ℚ), p ≤ ps.foldl max p
  | [], p => le_refl p
  | a :: as, p => le_trans (le_max_left p a) (init_le_foldl_max as (max p a))

theorem foldl_max_mem : ∀ (ps : List ℚ) (p : ℚ), ps.foldl max p ∈ p :: ps
  | [], p => by simp
  | a :: as, p => by
    have h := foldl_max_mem as (max p a)
    simp only [List.foldl_cons]
    rcases max_choice p a with hc | hc <;> rw [hc] at h ⊢ <;>
      simp only [List.mem_cons] at h ⊢ <;> tauto

theorem le_foldl_max : ∀ (ps : List ℚ) (p x : ℚ), x ∈ p :: ps → x ≤ ps.foldl max p
  | [], p, x, h => by
    simp only [List.mem_cons, List.not_mem_nil, or_false] at h
    exact h ▸ le_refl p
  | a :: as, p, x, h => by
    simp only [List.foldl_cons]
    rcases List.mem_cons.mp h with h1 | h1
    · subst h1
      exact le_trans (le_max_left x a) (init_le_foldl_max as (max x a))
    · rcases List.mem_cons.mp h1 with h2 | h2
      · subst h2
        exact le_trans (le_max_right p x) (init_le_foldl_max as (max p x))
      · exact le_foldl_max as (max p a) x (List.mem_cons_of_mem _ h2)

/-- C2: whenever `fetch_rain_probability` actually fetches (one external
call) and returns a summary, that summary's `max_rain_prob` equals
`round(100 * m)` (Python round, half to even) where `m` is the maximum `pop`
over the first 4 series entries with a missing `pop` defaulting to 0
(`p :: ps` is that mapped prefix, so `m = ps.foldl max p` and the theorem
also proves `m` to be its maximum); `risk_level` is HIGH iff `m ≥ 0.7`,
MODERATE iff `0.4 ≤ m < 0.7`, LOW iff `m < 0.4`. -/
theorem forecast_summary_spec (now : ℚ) (cache : List (String × ForecastEntry))
    (place : String) (items : List ForecastItem) (s : SummaryData)
    (cache' : List (String × ForecastEntry)) (p : ℚ) (ps : List ℚ)
    (hmap : (items.take 4).map (fun item => item.pop.getD 0) = p :: ps)
    (h : fetch_rain_probability true now cache place (.success items) = (some s, cache', 1)) :
    s.max_rain_prob = some (pyRound (100 * ps.foldl max p))
    ∧ ps.foldl max p ∈ p :: ps
    ∧ (∀ x ∈ p :: ps, x ≤ ps.foldl max p)
    ∧ (s.risk_level = some ("HIGH") ↔ 7 / 10 ≤ ps.foldl max p)
    ∧ (s.risk_level = some ("MODERATE") ↔ 2 / 5 ≤ ps.foldl max p ∧ ps.foldl max p < 7 / 10)
    ∧ (s.risk_level = some ("LOW") ↔ ps.foldl max p < 2 / 5) := by
  have hupd : fetch_forecast_update now cache place (.success items) = (some s, cache', 1) := by
    cases he : fcLookup cache place with
    | some e =>
      by_cases hfresh : now - e.timestamp < 7200 ∧ e.data.max_rain_prob.isSome
          ∧ e.data.risk_level.isSome
      · rw [fetch_rain_probability] at h
        simp only [if_pos rfl, he, if_pos hfresh] at h
        exact absurd (congrArg (fun t => t.2.2) h) (by simp)
      · simpa [fetch_rain_probability, he, hfresh] using h
    | none => simpa [fetch_rain_probability, he] using h
  simp only [fetch_forecast_update, hmap] at hupd
  simp only [Prod.mk.injEq, Option.some.injEq] at hupd
  obtain ⟨hs, -, -⟩ := hupd
  subst hs
  refine ⟨by rw [mul_comm], foldl_max_mem ps p, fun x hx => le_foldl_max ps p x hx, ?_, ?_, ?_⟩
  · constructor
    · intro hr
      by_contra hlt
      push_neg at hlt
      have h7 : ¬(ps.foldl max p ≥ 7 / 10) := not_le.mpr hlt
      by_cases h4 : ps.foldl max p ≥ 2 / 5 <;> simp [h7, h4] at hr
    · intro hge
      simp [ge_iff_le, hge]
  · constructor
    · intro hr
      by_cases h7 : ps.foldl max p ≥ 7 / 10
      · simp [h7] at hr
      · by_cases h4 : ps.foldl max p ≥ 2 / 5
        · exact ⟨h4, not_le.mp h7⟩
        · simp [h7, h4] at hr
    · rintro ⟨h4, h7⟩
      simp [ge_iff_le, h4, not_le.mpr h7]
  · constructor
    · intro hr
      by_cases h7 : ps.foldl max p ≥ 7 / 10
      · simp [h7] at hr
      · by_cases h4 : ps.foldl max p ≥ 2 / 5
        · simp [h7, h4] at hr
        · exact lt_of_not_ge h4
    · intro hlt
      have h7 : ¬(ps.foldl max p ≥ 7 / 10) := by
        intro hc
        exact absurd (lt_of_le_of_lt (le_trans (by norm_num) hc) hlt) (lt_irrefl _)
      have h4 : ¬(ps.foldl max p ≥ 2 / 5) := not_le.mpr hlt
      simp [h7, h4]

/-- Witness for C2: a single series item with pop 1/2 yields probability 50
and risk MODERATE through a real fetch. -/
theorem forecast_summary_spec_witness :
    (([⟨some (1 / 2)⟩] : List ForecastItem).take 4).map (fun item => item.pop.getD 0)
      = [(1 : ℚ) / 2]
    ∧ fetch_rain_probability true 0 [] ("W") (.success [⟨some (1 / 2)⟩])
      = (some ⟨some 50, some ("MODERATE")⟩,
         [(("W"), ⟨0, ⟨some 50, some ("MODERATE")⟩⟩)], 1)
    ∧ (⟨some 50, some ("MODERATE")⟩ : SummaryData).max_rain_prob
      = some (pyRound (100 * ([] : List ℚ).foldl max (1 / 2))) := by
  have hmap : (([⟨some (1 / 2)⟩] : List ForecastItem).take 4).map
      (fun item => item.pop.getD 0) = [(1 : ℚ) / 2] := by
    simp
  have hrun : fetch_rain_probability true 0 [] ("W") (.success [⟨some (1 / 2)⟩])
      = (some ⟨some 50, some ("MODERATE")⟩,
         [(("W"), ⟨0, ⟨some 50, some ("MODERATE")⟩⟩)], 1) := by
    simp only [fetch_rain_probability, if_pos rfl, fcLookup, fetch_forecast_update]
    norm_num [fcInsert, pyRound]
  exact ⟨hmap, hrun,
    (forecast_summary_spec 0 [] ("W") [⟨some (1 / 2)⟩] ⟨some 50, some ("MODERATE")⟩
      [(("W"), ⟨0, ⟨some 50, some ("MODERATE")⟩⟩)] (1 / 2) [] hmap hrun).1⟩

theorem jlookup_eq_none_iff (kvs : List (String × Json)) (key : String) :
    jlookup kvs key = none ↔ (kvs.any fun p => p.1 == key) = false := by
  induction kvs with
  | nil => simp [jlookup]
  | cons kv rest ih =>
    obtain ⟨k, v⟩ := kv
    by_cases hk : k = key
    · simp [jlookup, hk]
    · simp [jlookup, hk, ih]

theorem allIn_obj (locations : List String) (ekvs : List (String × Json)) :
    allIn locations (.obj ekvs) = .ok (locations.all fun loc => ekvs.any fun p => p.1 == loc) := by
  induction locations with
  | nil => rfl
  | cons loc rest ih =>
    simp only [allIn, Json.pyContainsStr, List.all_cons]
    cases hany : (ekvs.any fun p => p.1 == loc) with
    | true => simpa [hany] using ih
    | false => simp [hany]

/-- C3: `get_location_cache` invokes the rebuild collaborator exactly once
when the loaded cache (a JSON object here) is empty, or its `version` differs
from the fingerprint of the configured list, or any configured name is
missing from its `locations` entries — including a matching fingerprint with
one absent name; when the fingerprint matches and every configured name is
present, the loaded cache is returned as-is with zero rebuild invocations. -/
theorem location_cache_get_or_rebuild (kvs : List (String × Json))
    (locations : List String) (rebuilt : Json) :
    (kvs = [] → get_location_cache (.obj kvs) locations rebuilt = .ok (rebuilt, 1))
    ∧ (∀ v, kvs ≠ [] → jlookup kvs ("version") = some v →
      jsonEqStr v (hash_locations locations) = false →
      get_location_cache (.obj kvs) locations rebuilt = .ok (rebuilt, 1))
    ∧ (kvs ≠ [] → jlookup kvs ("version") = none →
      get_location_cache (.obj kvs) locations rebuilt = .ok (rebuilt, 1))
    ∧ (∀ ekvs loc, kvs ≠ [] →
      jlookup kvs ("version") = some (.str (hash_locations locations)) →
      jlookup kvs ("locations") = some (.obj ekvs) →
      loc ∈ locations → jlookup ekvs loc = none →
      get_location_cache (.obj kvs) locations rebuilt = .ok (rebuilt, 1))
    ∧ (∀ ekvs, kvs ≠ [] →
      jlookup kvs ("version") = some (.str (hash_locations locations)) →
      jlookup kvs ("locations") = some (.obj ekvs) →
      (∀ loc ∈ locations, ∃ w, jlookup ekvs loc = some w) →
      get_location_cache (.obj kvs) locations rebuilt = .ok (.obj kvs, 0)) := by
  refine ⟨?_, ?_, ?_, ?_, ?_⟩
  · intro hnil
    subst hnil
    rfl
  · intro v hne hv hneq
    simp [get_location_cache, Json.truthy, List.isEmpty_eq_true, hne, Json.pyGet, hv, hneq]
  · intro hne hv
    simp [get_location_cache, Json.truthy, List.isEmpty_eq_true, hne, Json.pyGet, hv, jsonEqStr]
  · intro ekvs loc hne hv hl hloc hmiss
    have hany : (ekvs.any fun p => p.1 == loc) = false := (jlookup_eq_none_iff ekvs loc).mp hmiss
    have hall : (locations.all fun l => ekvs.any fun p => p.1 == l) = false :=
      List.all_eq_false.mpr ⟨loc, hloc, by simp [hany]⟩
    simp [get_location_cache, Json.truthy, List.isEmpty_eq_true, hne, Json.pyGet, hv,
      jsonEqStr, hl, allIn_obj, hall]
  · intro ekvs hne hv hl hpres
    have hall : (locations.all fun l => ekvs.any fun p => p.1 == l) = true := by
      refine List.all_eq_true.mpr fun l hlmem => ?_
      obtain ⟨w, hw⟩ := hpres l hlmem
      by_contra hfalse
      have : jlookup ekvs l = none :=
        (jlookup_eq_none_iff ekvs l).mpr (Bool.not_eq_true _ ▸ hfalse)
      rw [this] at hw
      exact Option.noConfusion hw
    simp [get_location_cache, Json.truthy, List.isEmpty_eq_true, hne, Json.pyGet, hv,
      jsonEqStr, hl, allIn_obj, hall]

/-- Witness for C3 at the spec's integrity-check scenario: a cache whose
fingerprint matches the configured list `["A","B"]` but whose entries lack
`"B"` is rebuilt exactly once; and a fully valid cache is returned as-is
with zero rebuilds. -/
theorem location_cache_get_or_rebuild_witness :
    get_location_cache
      (.obj [(("version"), .str (hash_locations [("A"), ("B")])),
             (("locations"), .obj [(("A"), .obj [])])])
      [("A"), ("B")] .null
      = .ok (.null, 1)
    ∧ get_location_cache
      (.obj [(("version"), .str (hash_locations [("A"), ("B")])),
             (("locations"), .obj [(("A"), .obj []), (("B"), .obj [])])])
      [("A"), ("B")] .null
      = .ok (.obj [(("version"), .str (hash_locations [("A"), ("B")])),
             (("locations"), .obj [(("A"), .obj []), (("B"), .obj [])])], 0) := by
  constructor
  · exact (location_cache_get_or_rebuild _ _ _).2.2.2.1
      [(("A"), .obj [])] ("B") (by simp)
      (by simp [jlookup]) (by simp [jlookup]) (by simp) (by simp [jlookup])
  · exact (location_cache_get_or_rebuild _ _ _).2.2.2.2
      [(("A"), .obj []), (("B"), .obj [])] (by simp)
      (by simp [jlookup]) (by simp [jlookup])
      (by intro loc hloc
          rcases List.mem_cons.mp hloc with h1 | h1
          · subst h1; exact ⟨.obj [], by simp [jlookup]⟩
          · simp only [List.mem_cons, List.not_mem_nil, or_false] at h1
            subst h1; exact ⟨.obj [], by simp [jlookup]⟩)

/-- C9: the fingerprint is not injective on configured lists — the `"|"`-join
of `["a|b"]` and of `["a","b"]` is the same string, so `hash_locations`
agrees on these two distinct configurations, and the version-mismatch test
of `get_location_cache` cannot distinguish them for any stored `version`
value. -/
theorem hash_locations_collision :
    hash_locations [("a|b")] = hash_locations [("a"), ("b")]
    ∧ ([("a|b")] : List String) ≠ [("a"), ("b")]
    ∧ ∀ v : Json, jsonEqStr v (hash_locations [("a|b")])
      = jsonEqStr v (hash_locations [("a"), ("b")]) := by
  have hjoin : String.intercalate ("|") (pySorted [("a|b")])
      = String.intercalate ("|") (pySorted [("a"), ("b")]) := by decide
  have hdig : hash_locations [("a|b")] = hash_locations [("a"), ("b")] := by
    unfold hash_locations
    exact congrArg sha256_hex hjoin
  exact ⟨hdig, by decide, fun v => by rw [hdig]⟩

/-- C10: `load_json` hands back any decoded JSON value unvalidated, so a
location cache file holding a non-empty JSON array reaches
`get_location_cache`, where `cache.get("version")` raises `AttributeError`;
the exception escapes to the top-level handler of `main` and the run ends
with no snapshot produced. -/
theorem array_cache_aborts_run (x : Json) (xs : List Json) (locations : List String)
    (rebuilt : Json) (clock : ℕ → ℚ) (weatherOf : String → Option WeatherData)
    (forecastOf : String → FetchOutcome) (fc : List (String × ForecastEntry)) :
    load_json (.content (.arr (x :: xs))) = .arr (x :: xs)
    ∧ get_location_cache (.arr (x :: xs)) locations rebuilt = .error .attributeError
    ∧ main_model true (.content (.arr (x :: xs))) locations rebuilt clock
        weatherOf forecastOf fc = none := by
  have hget : get_location_cache (.arr (x :: xs)) locations rebuilt
      = .error .attributeError := by
    simp [get_location_cache, Json.truthy, Json.pyGet]
  exact ⟨rfl, hget, by simp [main_model, main_try, load_json, hget]⟩

theorem main_loop_counter (clock : ℕ → ℚ) (weatherOf : String → Option WeatherData)
    (forecastOf : String → FetchOutcome) :
    ∀ (ld : List (String × Json)) (k : ℕ) (fc : List (String × ForecastEntry))
      (rs : List LocationResult) (k' : ℕ) (fc' : List (String × ForecastEntry)),
      main_loop clock weatherOf forecastOf ld k fc = .ok (rs, k', fc') →
      k' = k + ld.length ∧ rs.length = ld.length := by
  intro ld
  induction ld with
  | nil =>
    intro k fc rs k' fc' h
    simp only [main_loop, Except.ok.injEq, Prod.mk.injEq] at h
    obtain ⟨h1, h2, -⟩ := h
    subst h1
    subst h2
    simp
  | cons pc rest ih =>
    intro k fc rs k' fc' h
    obtain ⟨place, coords⟩ := pc
    simp only [main_loop] at h
    cases hg : get_coords coords with
    | error e => rw [hg] at h; exact absurd h (by simp)
    | ok lt =>
      rw [hg] at h
      cases hb : build_location_result place (weatherOf place)
          (fetch_rain_probability true (clock k) fc place (forecastOf place)).1 with
      | error e => rw [hb] at h; exact absurd h (by simp)
      | ok r =>
        rw [hb] at h
        cases hrec : main_loop clock weatherOf forecastOf rest (k + 1)
            (fetch_rain_probability true (clock k) fc place (forecastOf place)).2.1 with
        | error e => rw [hrec] at h; exact absurd h (by simp)
        | ok t =>
          obtain ⟨rs0, k2, fc2⟩ := t
          rw [hrec] at h
          simp only [Except.ok.injEq, Prod.mk.injEq] at h
          obtain ⟨h1, h2, -⟩ := h
          obtain ⟨hk, hlen⟩ := ih (k + 1) _ rs0 k2 fc2 hrec
          subst h1
          subst h2
          constructor
          · rw [hk]; simp; omega
          · simp [hlen]

/-- C8 as amended: each run assembles exactly one snapshot whose
`generated_at` is sampled once, at snapshot construction after the
per-location loop has finished (the loop consumes one `time.time()` sample
per location, so `generated_at` is the `n`-th sample for `n` locations); the
snapshot carries that single timestamp for all its locations, none of which
is individually re-stamped. -/
theorem generated_at_stamped_after_loop (clock : ℕ → ℚ)
    (weatherOf : String → Option WeatherData) (forecastOf : String → FetchOutcome)
    (locations_data : List (String × Json)) (fc : List (String × ForecastEntry))
    (snap : Snapshot) (fcEnd : List (String × ForecastEntry))
    (h : main_assemble clock weatherOf forecastOf locations_data fc = .ok (snap, fcEnd)) :
    snap.generated_at = clock locations_data.length
    ∧ snap.locations.length = locations_data.length := by
  simp only [main_assemble] at h
  cases hl : main_loop clock weatherOf forecastOf locations_data 0 fc with
  | error e => rw [hl] at h; exact absurd h (by simp)
  | ok t =>
    obtain ⟨rs, k, fc'⟩ := t
    rw [hl] at h
    simp only [Except.ok.injEq, Prod.mk.injEq] at h
    obtain ⟨hsnap, -⟩ := h
    obtain ⟨hk, hlen⟩ :=
      main_loop_counter clock weatherOf forecastOf locations_data 0 fc rs k fc' hl
    subst hsnap
    exact ⟨by simp [hk], by simp [hlen]⟩

/-- Counterexample to C8 as stated: in a run over one location where the
clock advances (sample `k` has value `k`), the snapshot's `generated_at` is
the sample taken after the per-location processing (value 1), not the one at
the start of assembly (value 0) — `datetime.now` is evaluated when
`output_data` is built, after the loop. -/
theorem generated_at_counterexample :
    main_assemble (fun k => (k : ℚ)) (fun _ => none) (fun _ => FetchOutcome.failure)
        [(("A"), Json.obj [(("lat"), Json.num 0), (("lon"), Json.num 0)])] []
      = .ok ({ generated_at := 1,
               locations := [{ place := "A",
                               temp := none,
                               feels_like := none,
                               humidity := none,
                               wind_speed := none,
                               clouds := none,
                               description := none,
                               rain_probability := none,
                               risk := "UNKNOWN" }] }, [])
    ∧ (1 : ℚ) ≠ (fun k => (k : ℚ)) 0 := by
  constructor
  · simp [main_assemble, main_loop, get_coords, Json.pyIndex, jlookup,
      fetch_rain_probability, fcLookup, fetch_forecast_update, build_location_result]
  · norm_num

/-- Witness for the amended C8 on a concrete one-location run: the snapshot
timestamp equals the clock sample with index 1 = number of locations. -/
theorem generated_at_stamped_after_loop_witness :
    main_assemble (fun k => (k : ℚ)) (fun _ => none) (fun _ => FetchOutcome.failure)
        [(("B"), Json.obj [(("lat"), Json.num 2), (("lon"), Json.num 3)])] []
      = .ok ({ generated_at := 1,
               locations := [{ place := "B",
                               temp := none,
                               feels_like := none,
                               humidity := none,
                               wind_speed := none,
                               clouds := none,
                               description := none,
                               rain_probability := none,
                               risk := "UNKNOWN" }] }, [])
    ∧ ({ generated_at := (1 : ℚ),
         locations := [{ place := "B",
                         temp := none,
                         feels_like := none,
                         humidity := none,
                         wind_speed := none,
                         clouds := none,
                         description := none,
                         rain_probability := none,
                         risk := "UNKNOWN" }] } : Snapshot).generated_at
      = (fun k => (k : ℚ))
        ([(("B"), Json.obj [(("lat"), Json.num 2), (("lon"), Json.num 3)])]
          : List (String × Json)).length := by
  have h : main_assemble (fun k => (k : ℚ)) (fun _ => none) (fun _ => FetchOutcome.failure)
      [(("B"), Json.obj [(("lat"), Json.num 2), (("lon"), Json.num 3)])] []
      = .ok ({ generated_at := 1,
               locations := [{ place := "B",
                               temp := none,
                               feels_like := none,
                               humidity := none,
                               wind_speed := none,
                               clouds := none,
                               description := none,
                               rain_probability := none,
                               risk := "UNKNOWN" }] }, []) := by
    simp [main_assemble, main_loop, get_coords, Json.pyIndex, jlookup,
      fetch_rain_probability, fcLookup, fetch_forecast_update, build_location_result]
  exact ⟨h, (generated_at_stamped_after_loop _ _ _ _ _ _ _ h).1⟩
